import Mathlib

/-!
Verification of the pillion-pay-pal shared travel expense tracker.

The data model embeds the four SQL tables (profiles, settings, attendance,
requests) as lists of records; the client-side operations
(markAttendance, pairWithRider, savePetrolCost, sendRequest,
resetMonthlyData, the dashboard aggregation and the analytics windowing)
are embedded as pure functions on that state.  Supabase `.upsert` is
modelled as insert-or-replace keyed by the table's declared UNIQUE
constraint; `.maybeSingle()` / `.single()` lookups are `List.find?`.
Monetary DECIMAL(10,2) amounts are rationals; SQL DATE values are
year/month/day triples ordered like the calendar.
-/

/-- A calendar date: SQL `DATE` / an ISO `YYYY-MM-DD` string. -/
structure CalDate where
  year : Nat
  month : Nat
  day : Nat
  deriving DecidableEq

/-- The `user_role` enum from the initial migration. -/
inductive Role where
  | rider
  | partner
  deriving DecidableEq

/-- A row of `public.profiles`. -/
structure Profile where
  user_id : String
  email : String
  role : Role
  pairing_code : Option String
  paired_rider_id : Option String
  deriving DecidableEq

/-- A row of `public.settings` (UNIQUE(rider_id)). -/
structure Setting where
  rider_id : String
  daily_petrol_cost : ℚ
  deriving DecidableEq

/-- A row of `public.attendance` (UNIQUE(partner_id, rider_id, date)). -/
structure AttendanceRow where
  partner_id : String
  rider_id : String
  date : CalDate
  status : String
  amount : ℚ
  deriving DecidableEq

/-- A row of `public.requests` (UNIQUE(rider_id, partner_id, date)). -/
structure RequestRow where
  rider_id : String
  partner_id : String
  date : CalDate
  status : String
  deriving DecidableEq

/-- The database state: the four tables. -/
structure DB where
  profiles : List Profile
  settings : List Setting
  attendance : List AttendanceRow
  requests : List RequestRow
  deriving DecidableEq

/-- Calendar order on dates, as the SQL `DATE` comparison used by
`.gte('date', ...)` on ISO strings. -/
def dateLeB (a b : CalDate) : Bool :=
  decide (a.year < b.year) ||
    (decide (a.year = b.year) &&
      (decide (a.month < b.month) ||
        (decide (a.month = b.month) && decide (a.day ≤ b.day))))

/-- Supabase `.upsert` against a table, modelled as insert-or-replace keyed
by the table's natural unique key: `sameKey row a` holds when `a` has the
same key as `row`. -/
def upsertByKey {α : Type} (sameKey : α → α → Bool) (l : List α) (row : α) :
    List α :=
  if l.any (sameKey row) then
    l.map (fun a => if sameKey row a then row else a)
  else l ++ [row]

/-- Same (partner_id, rider_id, date) key on attendance rows. -/
def attSameKey (row a : AttendanceRow) : Bool :=
  decide (a.partner_id = row.partner_id) && decide (a.rider_id = row.rider_id)
    && decide (a.date = row.date)

/-- Same (rider_id, partner_id, date) key on request rows. -/
def reqSameKey (row r : RequestRow) : Bool :=
  decide (r.rider_id = row.rider_id) && decide (r.partner_id = row.partner_id)
    && decide (r.date = row.date)

/-- The paired rider's profile as resolved by `fetchDashboardData` in
`PartnerDashboard.tsx`: read the partner's own profile, follow its
`paired_rider_id`, and fetch that rider's profile (`riderInfo`). -/
def riderInfoOf (db : DB) (partnerId : String) : Option Profile :=
  match db.profiles.find? (fun p => decide (p.user_id = partnerId)) with
  | none => none
  | some p =>
    match p.paired_rider_id with
    | none => none
    | some rid => db.profiles.find? (fun q => decide (q.user_id = rid))

/-- Result of `markAttendance`: the early return when no rider is paired,
the "Rider hasn't set daily petrol cost yet" failure (`NoSettingsError`
in the spec), or success carrying the recorded amount. -/
inductive MarkResult where
  | notPaired
  | noSettings
  | marked (amount : ℚ)
  deriving DecidableEq

/-- `markAttendance` from `PartnerDashboard.tsx`: look up the paired
rider's settings row; if absent fail without writing; otherwise upsert an
attendance row for (partner, rider, today) with the looked-up amount and
status `present`, then set status `completed` on every request row with
this partner and date. -/
def markAttendance (db : DB) (partnerId : String) (today : CalDate) :
    DB × MarkResult :=
  match riderInfoOf db partnerId with
  | none => (db, MarkResult.notPaired)
  | some rider =>
    match db.settings.find? (fun s => decide (s.rider_id = rider.user_id)) with
    | none => (db, MarkResult.noSettings)
    | some s =>
      let row : AttendanceRow :=
        ⟨partnerId, rider.user_id, today, "present", s.daily_petrol_cost⟩
      ({ db with
          attendance := upsertByKey attSameKey db.attendance row,
          requests := db.requests.map (fun r =>
            if decide (r.partner_id = partnerId) && decide (r.date = today) then
              { r with status := "completed" }
            else r) },
        MarkResult.marked s.daily_petrol_cost)

/-- `savePetrolCost` from `RiderDashboard.tsx`: reject amounts outside
[0, 10000]; otherwise update the existing settings row for the rider, or
insert a fresh one when none exists. -/
def savePetrolCost (db : DB) (riderId : String) (cost : ℚ) : DB :=
  if cost < 0 ∨ 10000 < cost then db
  else
    match db.settings.find? (fun s => decide (s.rider_id = riderId)) with
    | some _ =>
      { db with
          settings := db.settings.map (fun s =>
            if decide (s.rider_id = riderId) then
              { s with daily_petrol_cost := cost }
            else s) }
    | none => { db with settings := db.settings ++ [⟨riderId, cost⟩] }

/-- JS whitespace characters stripped by `String.prototype.trim`. -/
def isSpaceChar (c : Char) : Bool :=
  decide (c = ' ') || decide (c = '\t') || decide (c = '\n') || decide (c = '\r')

/-- Model of JS `code.trim()`. -/
def trimStr (s : String) : String :=
  String.mk (((s.toList.dropWhile isSpaceChar).reverse.dropWhile
    isSpaceChar).reverse)

/-- Model of JS `toUpperCase` on one ASCII character. -/
def upperChar (c : Char) : Char :=
  if decide ('a' ≤ c) && decide (c ≤ 'z') then Char.ofNat (c.toNat - 32) else c

/-- Model of JS `code.toUpperCase()`. -/
def upperStr (s : String) : String :=
  String.mk (s.toList.map upperChar)

/-- A character admitted by the `[A-Z0-9]` class. -/
def isAlphaNumUpper (c : Char) : Bool :=
  (decide ('A' ≤ c) && decide (c ≤ 'Z')) || (decide ('0' ≤ c) && decide (c ≤ '9'))

/-- The `/^[A-Z0-9]{6}$/` format test in `pairWithRider`. -/
def validCodeFormat (s : String) : Bool :=
  decide (s.toList.length = 6) && s.toList.all isAlphaNumUpper

/-- Side effects of `pairWithRider` that the error-handling claims talk
about: the rider lookup query and the partner-profile update. -/
inductive PairEffect where
  | lookupRider
  | updatePartnerProfile
  deriving DecidableEq

/-- `pairWithRider` from `PartnerDashboard.tsx` (current revision): return
at once when the trimmed code is empty; validate the trimmed, uppercased
code against `/^[A-Z0-9]{6}$/` before any lookup; look up a rider profile
by exact code match; on a match set the partner's `paired_rider_id`.
The returned effect list records which queries ran. -/
def pairWithRider (db : DB) (partnerId : String) (code : String) :
    DB × List PairEffect :=
  if trimStr code = "" then (db, [])
  else if validCodeFormat (upperStr (trimStr code)) then
    match db.profiles.find? (fun p =>
        decide (p.pairing_code = some (upperStr (trimStr code))) &&
          decide (p.role = Role.rider)) with
    | none => (db, [PairEffect.lookupRider])
    | some rp =>
      ({ db with
          profiles := db.profiles.map (fun p =>
            if decide (p.user_id = partnerId) then
              { p with paired_rider_id := some rp.user_id }
            else p) },
        [PairEffect.lookupRider, PairEffect.updatePartnerProfile])
  else (db, [])

/-- The partner lookup in `RiderDashboard.fetchDashboardData`: the first
profile with role `partner` from an unfiltered query (`limit 1`). -/
def findPartner (db : DB) : Option Profile :=
  db.profiles.find? (fun p => decide (p.role = Role.partner))

/-- `sendRequest` from `RiderDashboard.tsx`: upsert a request row for
(rider, partnerInfo.user_id, today) with status `pending`; no-op when the
partner lookup found nobody. -/
def sendRequest (db : DB) (riderId : String) (today : CalDate) : DB :=
  match findPartner db with
  | none => db
  | some p =>
    { db with
        requests := upsertByKey reqSameKey db.requests
          ⟨riderId, p.user_id, today, "pending"⟩ }

/-- `resetMonthlyData` from `RiderDashboard.tsx`: delete the invoking
rider's attendance rows whose date is ≥ the first day of the reference
month (`.eq('rider_id', ...)` and `.gte('date', 'YYYY-MM-01')`). -/
def resetMonthlyData (db : DB) (riderId : String) (refYear refMonth : Nat) :
    DB :=
  { db with
      attendance := db.attendance.filter (fun a =>
        !(decide (a.rider_id = riderId) &&
          dateLeB ⟨refYear, refMonth, 1⟩ a.date)) }

/-- `totalSpent` in `fetchDashboardData`: reduce over every attendance
record, summing `amount`. -/
def totalSpent (att : List AttendanceRow) : ℚ :=
  att.foldl (fun sum r => sum + r.amount) 0

/-- `monthlyAttendance` in `fetchDashboardData`: records whose date has
the reference calendar month and year. -/
def monthlyAttendance (att : List AttendanceRow) (refMonth refYear : Nat) :
    List AttendanceRow :=
  att.filter (fun r =>
    decide (r.date.month = refMonth) && decide (r.date.year = refYear))

/-- `monthlySpent` in `fetchDashboardData`: reduce over the monthly
records, summing `amount`. -/
def monthlySpent (att : List AttendanceRow) (refMonth refYear : Nat) : ℚ :=
  (monthlyAttendance att refMonth refYear).foldl (fun sum r => sum + r.amount) 0

/-- `daysThisMonth` in `fetchDashboardData`: the count of monthly
records. -/
def daysThisMonth (att : List AttendanceRow) (refMonth refYear : Nat) : Nat :=
  (monthlyAttendance att refMonth refYear).length

/-- JS `x.toFixed(2)` on the exact rational value: round to two decimal
places. -/
def toFixed2 (q : ℚ) : ℚ :=
  ((round (q * 100) : ℤ) : ℚ) / 100

/-- The "Avg per Day" figure in `PartnerDashboard`:
`daysThisMonth > 0 ? (monthlySpent / daysThisMonth).toFixed(2) : '0'`. -/
def avgPerDay (monthly : ℚ) (days : Nat) : ℚ :=
  if 0 < days then toFixed2 (monthly / (days : ℚ)) else 0

/-- An attendance record as `AnalyticsChart.fetchAnalyticsData` consumes
it: a date (as an absolute day index) and an amount. -/
structure ChartAtt where
  date : Nat
  amount : ℚ
  deriving DecidableEq

/-- A request record as `AnalyticsChart.fetchAnalyticsData` consumes it. -/
structure ChartReq where
  date : Nat
  status : String
  deriving DecidableEq

/-- One entry of the chart's dense day-by-day sequence. -/
structure ChartPoint where
  date : Nat
  amount : ℚ
  status : String
  deriving DecidableEq

/-- Day inside the fetch window `[startD, endD]`. -/
def inWindow (startD endD d : Nat) : Bool :=
  decide (startD ≤ d) && decide (d ≤ endD)

/-- The per-day entry built inside the while loop of
`fetchAnalyticsData`: `completed` with the record's amount when an
attendance record exists for the day, else `requested` with amount 0 when
a (pre-filtered pending) request exists, else `none` with amount 0. -/
def mkChartPoint (att : List ChartAtt) (reqs : List ChartReq) (d : Nat) :
    ChartPoint :=
  match att.find? (fun a => decide (a.date = d)) with
  | some a => ⟨d, a.amount, "completed"⟩
  | none =>
    match reqs.find? (fun r => decide (r.date = d)) with
    | some _ => ⟨d, 0, "requested"⟩
    | none => ⟨d, 0, "none"⟩

/-- `fetchAnalyticsData` in the 7-day (`day`) view mode: the start date is
7 days before the reference date `endD`; attendance is fetched for dates
in the window, requests additionally filtered to status `pending`; the
loop then walks day by day while `currentDate <= endDate`, pushing one
entry per day. -/
def fetchAnalyticsDay (att : List ChartAtt) (reqs : List ChartReq)
    (endD : Nat) : List ChartPoint :=
  let startD := endD - 7
  let attF := att.filter (fun a => inWindow startD endD a.date)
  let reqF := reqs.filter (fun r =>
    inWindow startD endD r.date && decide (r.status = "pending"))
  (List.range (endD - startD + 1)).map (fun i => mkChartPoint attF reqF (startD + i))

/-- The character pool of the legacy SQL `generate_pairing_code`:
`'ABCDEFGHIJKLMNOPQRSTUVWXYZ0123456789'`. -/
def pairingCharset : List Char :=
  "ABCDEFGHIJKLMNOPQRSTUVWXYZ0123456789".toList

/-- One candidate code of the legacy generator: six characters drawn from
the pool by random index (`substr(chars, floor(random()*36+1), 1)`); the
oracle `stream` supplies the random draws, attempt `k` consuming draws
`6*k .. 6*k+5`. -/
def mkCodeV1 (stream : Nat → Nat) (k : Nat) : String :=
  String.mk ((List.range 6).map (fun j =>
    pairingCharset.getD (stream (6 * k + j) % 36) 'A'))

/-- A hexadecimal digit character, lowercase as `md5` emits them. -/
def hexChar (d : Fin 16) : Char :=
  "0123456789abcdef".toList.getD d.val '0'

/-- One candidate code of the current SQL `generate_pairing_code`:
`upper(substring(md5(random()::text) from 1 for 6))`.  The oracle
`digest` supplies md5 digests as their 32 hex digits, attempt `k`
consuming `digest k`. -/
def mkCodeV2 (digest : Nat → List (Fin 16)) (k : Nat) : String :=
  String.mk (((digest k).take 6).map (fun d => upperChar (hexChar d)))

/-- The retry-until-unique loop shared by both revisions of
`generate_pairing_code`: regenerate while the candidate collides with an
existing stored code.  `fuel` bounds the number of attempts (the SQL loop
is unbounded; every returned code is reached at some finite fuel). -/
def genLoop (mk : Nat → String) (existing : List String) :
    Nat → Nat → Option String
  | 0, _ => none
  | fuel + 1, k =>
    if mk k ∈ existing then genLoop mk existing fuel (k + 1) else some (mk k)

/-- The profile row inserted by the current `handle_new_user` trigger:
role defaults to `rider`; `pairing_code` is generated (oracle value
`gen`) exactly when the role is `rider`, else NULL. -/
def handle_new_user_row (uid email : String) (metaRole : Option Role)
    (gen : String) : Profile :=
  let role := metaRole.getD Role.rider
  ⟨uid, email, role, if role = Role.rider then some gen else none, none⟩

/-- The `set_pairing_code` BEFORE INSERT trigger from the legacy
migration (never dropped by any later migration): fill `pairing_code`
with a generated code (oracle value `gen2`) whenever the incoming row has
it NULL. -/
def set_pairing_code (gen2 : String) (p : Profile) : Profile :=
  if p.pairing_code.isNone then { p with pairing_code := some gen2 } else p

/-- Profile creation as the composed migrations leave it: the
`handle_new_user` AFTER INSERT trigger on signups builds the row, and the
`set_pairing_code_trigger` BEFORE INSERT trigger on `profiles` rewrites
it before it is stored. -/
def createProfile (db : DB) (uid email : String) (metaRole : Option Role)
    (gen gen2 : String) : DB :=
  { db with
      profiles := db.profiles ++
        [set_pairing_code gen2 (handle_new_user_row uid email metaRole gen)] }

/-- A character the claim's phrase "alphanumeric" admits.  Written from
the claim's words, not from the source, to state its precondition. -/
def claimAlphaNumChar (c : Char) : Bool :=
  (decide ('A' ≤ c) && decide (c ≤ 'Z')) ||
    (decide ('a' ≤ c) && decide (c ≤ 'z')) ||
    (decide ('0' ≤ c) && decide (c ≤ '9'))

/-- "exactly 6 alphanumeric characters", written from the claim's words
for the counterexample. -/
def claimSixAlphanumeric (s : String) : Bool :=
  decide (s.toList.length = 6) && s.toList.all claimAlphaNumChar

/-- The reference date used by the concrete witness states. -/
def refDate : CalDate := ⟨2025, 10, 11⟩

/-- Witness state for the end-to-end scenario: rider `R` with daily cost
120, partner `P` paired with `R`, one pending request for today. -/
def dbScenario : DB :=
  ⟨[⟨"P", "p@mail", Role.partner, none, some "R"⟩,
    ⟨"R", "r@mail", Role.rider, some "ABC123", none⟩],
   [⟨"R", 120⟩], [], [⟨"R", "P", refDate, "pending"⟩]⟩

/-- Witness state for idempotent re-marking: as `dbScenario`, but the
initial daily cost is 100 (it is then raised to 120 between the calls). -/
def dbRemark : DB :=
  ⟨[⟨"P", "p@mail", Role.partner, none, some "R"⟩,
    ⟨"R", "r@mail", Role.rider, some "ABC123", none⟩],
   [⟨"R", 100⟩], [], []⟩

/-- Witness state with a paired rider but no settings row. -/
def dbNoSettings : DB :=
  ⟨[⟨"P", "p@mail", Role.partner, none, some "R"⟩,
    ⟨"R", "r@mail", Role.rider, some "ABC123", none⟩],
   [], [], []⟩

/-- State used against the pairing-code validation claim: a rider whose
stored code is `ABC123` and an unpaired partner `p1`. -/
def dbPairCx : DB :=
  ⟨[⟨"r1", "r@mail", Role.rider, some "ABC123", none⟩,
    ⟨"p1", "p@mail", Role.partner, none, none⟩],
   [], [], []⟩

/-- The first partner profile of `dbTwoPartners`, not paired with rider
`r1`. -/
def partnerOne : Profile := ⟨"p1", "p1@mail", Role.partner, none, none⟩

/-- State with two partner profiles: `p1` (unpaired) listed before `p2`
(paired with rider `r1`). -/
def dbTwoPartners : DB :=
  ⟨[⟨"r1", "r@mail", Role.rider, some "ABC123", none⟩,
    partnerOne,
    ⟨"p2", "p2@mail", Role.partner, none, some "r1"⟩],
   [], [], []⟩

/-- The three-record attendance set of the aggregation example: amounts
100, 100, 50, all in October 2025. -/
def exampleRecords : List AttendanceRow :=
  [⟨"P", "R", ⟨2025, 10, 1⟩, "present", 100⟩,
   ⟨"P", "R", ⟨2025, 10, 2⟩, "present", 100⟩,
   ⟨"P", "R", ⟨2025, 10, 3⟩, "present", 50⟩]

lemma foldl_add_amount (l : List AttendanceRow) (init : ℚ) :
    l.foldl (fun sum r => sum + r.amount) init =
      init + (l.map (fun r => r.amount)).sum := by
  induction l generalizing init with
  | nil => simp
  | cons a t ih => simp [List.foldl_cons, ih, add_assoc]

lemma mem_upsertByKey_self {α : Type} (sameKey : α → α → Bool) (l : List α)
    (row : α) :
    row ∈ upsertByKey sameKey l row := by
  unfold upsertByKey
  split
  · rename_i h
    obtain ⟨a, ha, hka⟩ := List.any_eq_true.mp h
    exact List.mem_map.mpr ⟨a, ha, by simp [hka]⟩
  · simp

lemma filter_map_replace {α : Type} (k : α → Bool) (row : α)
    (hrow : k row = true) (l : List α) :
    (l.map (fun a => if k a then row else a)).filter k =
      List.replicate (l.filter k).length row := by
  induction l with
  | nil => rfl
  | cons a t ih =>
    by_cases h : k a = true
    · simp only [List.map_cons, List.filter_cons, h, if_pos, hrow,
        List.length_cons, List.replicate_succ, ih]
    · simp only [List.map_cons, List.filter_cons, h, if_neg, ih,
        Bool.false_eq_true, if_false]

lemma filter_upsertByKey {α : Type} (sameKey : α → α → Bool) (l : List α)
    (row : α) (hk : sameKey row row = true)
    (h : (l.filter (sameKey row)).length ≤ 1) :
    (upsertByKey sameKey l row).filter (sameKey row) = [row] := by
  unfold upsertByKey
  split
  · rename_i hany
    obtain ⟨a, ha, hka⟩ := List.any_eq_true.mp hany
    have hpos : 0 < (l.filter (sameKey row)).length :=
      List.length_pos.mpr (List.ne_nil_of_mem (List.mem_filter.mpr ⟨ha, hka⟩))
    have h1 : (l.filter (sameKey row)).length = 1 := by omega
    rw [filter_map_replace (sameKey row) row hk l, h1]
    rfl
  · rename_i hany
    have hnil : l.filter (sameKey row) = [] := by
      refine List.filter_eq_nil_iff.mpr (fun a ha => ?_)
      intro hka
      exact hany (List.any_eq_true.mpr ⟨a, ha, hka⟩)
    rw [List.filter_append, hnil, List.filter_cons]
    simp [hk]

lemma find?_map_pred {α : Type} (f : α → α) (p : α → Bool)
    (hp : ∀ x, p (f x) = p x) (l : List α) :
    (l.map f).find? p = (l.find? p).map f := by
  induction l with
  | nil => rfl
  | cons a t ih =>
    simp only [List.map_cons, List.find?_cons, hp]
    cases h : p a <;> simp [ih]

lemma riderInfoOf_eq_of_profiles (db1 db2 : DB) (partnerId : String)
    (h : db1.profiles = db2.profiles) :
    riderInfoOf db1 partnerId = riderInfoOf db2 partnerId := by
  unfold riderInfoOf
  rw [h]

lemma markAttendance_success (db : DB) (partnerId : String) (today : CalDate)
    (rp : Profile) (s : Setting)
    (h1 : riderInfoOf db partnerId = some rp)
    (h2 : db.settings.find? (fun x => decide (x.rider_id = rp.user_id)) = some s) :
    markAttendance db partnerId today =
      ({ db with
          attendance := upsertByKey attSameKey db.attendance
            ⟨partnerId, rp.user_id, today, "present", s.daily_petrol_cost⟩,
          requests := db.requests.map (fun r =>
            if decide (r.partner_id = partnerId) && decide (r.date = today) then
              { r with status := "completed" }
            else r) },
        MarkResult.marked s.daily_petrol_cost) := by
  unfold markAttendance
  rw [h1]
  dsimp only
  rw [h2]

/-- Claim C4: when the paired rider has no settings row, `markAttendance`
fails with the no-settings error and returns the state unchanged: no
attendance row is written and no request row is updated. -/
theorem markAttendance_no_settings (db : DB) (partnerId : String)
    (today : CalDate) (rp : Profile)
    (h1 : riderInfoOf db partnerId = some rp)
    (h2 : db.settings.find? (fun x => decide (x.rider_id = rp.user_id)) = none) :
    markAttendance db partnerId today = (db, MarkResult.noSettings) := by
  unfold markAttendance
  rw [h1]
  dsimp only
  rw [h2]

/-- Witness for C4 at a concrete state with a paired rider and no
settings row. -/
theorem markAttendance_no_settings_witness :
    markAttendance dbNoSettings "P" refDate = (dbNoSettings, MarkResult.noSettings) :=
  markAttendance_no_settings dbNoSettings "P" refDate
    ⟨"R", "r@mail", Role.rider, some "ABC123", none⟩ (by decide) (by decide)

/-- Claim C8 fails on the composed migrations: the legacy
`set_pairing_code_trigger` BEFORE INSERT trigger is never dropped, so a
newly created partner-role profile — inserted by the current
`handle_new_user` with `pairing_code` NULL — leaves profile creation
holding a generated pairing code rather than staying null.  (The
rider-role half of the claim does hold: the second conjunct.) -/
theorem partner_profile_gets_pairing_code :
    (createProfile ⟨[], [], [], []⟩ "u1" "px@mail" (some Role.partner)
        "AAA111" "BBB222").profiles =
      [⟨"u1", "px@mail", Role.partner, some "BBB222", none⟩] ∧
    (createProfile ⟨[], [], [], []⟩ "u2" "rx@mail" (some Role.rider)
        "AAA111" "BBB222").profiles =
      [⟨"u2", "rx@mail", Role.rider, some "AAA111", none⟩] := by decide

/-- Claim C9: `resetMonthlyData` deletes exactly the invoking rider's
attendance rows dated on or after the first day of the reference month
(any partner), keeps every other attendance row, and leaves settings,
requests and profiles unchanged. -/
theorem resetMonthlyData_spec (db : DB) (riderId : String)
    (refYear refMonth : Nat) :
    (∀ a : AttendanceRow,
        a ∈ (resetMonthlyData db riderId refYear refMonth).attendance ↔
          (a ∈ db.attendance ∧
            ¬(a.rider_id = riderId ∧
              (refYear < a.date.year ∨
                (refYear = a.date.year ∧
                  (refMonth < a.date.month ∨
                    (refMonth = a.date.month ∧ 1 ≤ a.date.day))))))) ∧
    (resetMonthlyData db riderId refYear refMonth).settings = db.settings ∧
    (resetMonthlyData db riderId refYear refMonth).requests = db.requests ∧
    (resetMonthlyData db riderId refYear refMonth).profiles = db.profiles := by
  refine ⟨fun a => ?_, rfl, rfl, rfl⟩
  simp only [resetMonthlyData, List.mem_filter, Bool.not_eq_true',
    Bool.eq_false_iff, ne_eq, Bool.and_eq_true, decide_eq_true_eq, dateLeB,
    Bool.or_eq_true]

/-- Claim C10: `sendRequest` writes its request row against the first
profile with role `partner` returned by the unfiltered `limit 1` query,
independent of pairing: in the concrete state `dbTwoPartners`, which
holds two partner profiles, the row is written against `p1`, a partner
that is not paired with the invoking rider `r1`, even though partner `p2`
is paired with `r1`. -/
theorem sendRequest_targets_first_partner :
    (∀ (db : DB) (riderId : String) (today : CalDate) (p : Profile),
        findPartner db = some p →
        (⟨riderId, p.user_id, today, "pending"⟩ : RequestRow) ∈
          (sendRequest db riderId today).requests) ∧
    findPartner dbTwoPartners = some partnerOne ∧
    partnerOne.paired_rider_id ≠ some "r1" ∧
    (∃ q ∈ dbTwoPartners.profiles,
      q.role = Role.partner ∧ q.paired_rider_id = some "r1" ∧
        q.user_id ≠ partnerOne.user_id) ∧
    (sendRequest dbTwoPartners "r1" refDate).requests =
      [⟨"r1", "p1", refDate, "pending"⟩] := by
  refine ⟨?_, by decide, by decide, by decide, by decide⟩
  intro db riderId today p hp
  unfold sendRequest
  rw [hp]
  exact mem_upsertByKey_self reqSameKey db.requests _

/-- Witness for C10: the general part of the theorem applied at the
concrete two-partner state. -/
theorem sendRequest_targets_first_partner_witness :
    (⟨"r1", "p1", refDate, "pending"⟩ : RequestRow) ∈
      (sendRequest dbTwoPartners "r1" refDate).requests :=
  sendRequest_targets_first_partner.1 dbTwoPartners "r1" refDate partnerOne
    (by decide)

/-- Claim C3 is false as stated: the input `"ABC123 "` is not exactly 6
alphanumeric characters (it has a trailing blank), yet `pairWithRider`
trims and uppercases it first, so the rider lookup runs and — a rider
with code `ABC123` existing in `dbPairCx` — the partner profile is
mutated. -/
theorem pair_validation_counterexample :
    claimSixAlphanumeric "ABC123 " = false ∧
    (pairWithRider dbPairCx "p1" "ABC123 ").2 ≠ [] ∧
    (pairWithRider dbPairCx "p1" "ABC123 ").1 ≠ dbPairCx := by decide

/-- Claim C3 (amended): for every input code that is empty after
trimming, or whose trimmed and uppercased form is not exactly 6
characters drawn from A-Z/0-9, `pairWithRider` performs no profile
lookup and mutates no state. -/
theorem pair_validation_amended (db : DB) (partnerId code : String)
    (h : trimStr code = "" ∨ validCodeFormat (upperStr (trimStr code)) = false) :
    pairWithRider db partnerId code = (db, []) := by
  unfold pairWithRider
  rcases h with h | h
  · rw [if_pos h]
  · by_cases h0 : trimStr code = ""
    · rw [if_pos h0]
    · rw [if_neg h0, if_neg (by simp [h])]

/-- Witness for the amended C3 at the malformed concrete code `"ABC"`. -/
theorem pair_validation_amended_witness :
    pairWithRider dbPairCx "p1" "ABC" = (dbPairCx, []) :=
  pair_validation_amended dbPairCx "p1" "ABC" (Or.inr (by decide))

/-- Claim C5: the aggregator's `total` is the sum of `amount` over all
records, `monthly` the sum over records in the reference calendar
month/year, `daysThisMonth` the size of that filtered set, and the
average per day is `monthly / daysThisMonth` rounded to 2 decimals; on
the example amounts [100, 100, 50] (all in the reference month) this
gives 250, 250, 3 and 83.33. -/
theorem aggregate_stats_spec :
    (∀ att : List AttendanceRow,
        totalSpent att = (att.map (fun r => r.amount)).sum) ∧
    (∀ (att : List AttendanceRow) (refMonth refYear : Nat),
        monthlySpent att refMonth refYear =
          ((att.filter (fun r =>
              decide (r.date.month = refMonth) &&
                decide (r.date.year = refYear))).map (fun r => r.amount)).sum) ∧
    (∀ (att : List AttendanceRow) (refMonth refYear : Nat),
        daysThisMonth att refMonth refYear =
          (att.filter (fun r =>
            decide (r.date.month = refMonth) &&
              decide (r.date.year = refYear))).length) ∧
    (∀ (monthly : ℚ) (days : Nat), 0 < days →
        avgPerDay monthly days =
          ((round ((monthly / (days : ℚ)) * 100) : ℤ) : ℚ) / 100) ∧
    totalSpent exampleRecords = 250 ∧
    monthlySpent exampleRecords 10 2025 = 250 ∧
    daysThisMonth exampleRecords 10 2025 = 3 ∧
    avgPerDay (monthlySpent exampleRecords 10 2025)
      (daysThisMonth exampleRecords 10 2025) = 8333 / 100 := by
  refine ⟨fun att => ?_, fun att refMonth refYear => ?_,
    fun att refMonth refYear => rfl, fun monthly days h => ?_, ?_, ?_, ?_, ?_⟩
  · simpa [totalSpent] using foldl_add_amount att 0
  · simpa [monthlySpent, monthlyAttendance] using
      foldl_add_amount (monthlyAttendance att refMonth refYear) 0
  · rw [avgPerDay, if_pos h, toFixed2]
  · norm_num [totalSpent, exampleRecords]
  · norm_num [monthlySpent, monthlyAttendance, exampleRecords]
  · norm_num [daysThisMonth, monthlyAttendance, exampleRecords]
  · norm_num [avgPerDay, toFixed2, round_eq, monthlySpent, daysThisMonth,
      monthlyAttendance, exampleRecords]

/-- Witness for C5's average clause at the example figures 250 and 3. -/
theorem aggregate_stats_spec_witness :
    avgPerDay 250 3 =
      ((round (((250 : ℚ) / ((3 : Nat) : ℚ)) * 100) : ℤ) : ℚ) / 100 :=
  aggregate_stats_spec.2.2.2.1 250 3 (by decide)

lemma genLoop_some (mk : Nat → String) (existing : List String) :
    ∀ (fuel k : Nat) (c : String), genLoop mk existing fuel k = some c →
      c ∉ existing ∧ ∃ j, c = mk j := by
  intro fuel
  induction fuel with
  | zero => intro k c h; cases h
  | succ n ih =>
    intro k c h
    unfold genLoop at h
    split at h
    · exact ih (k + 1) c h
    · rename_i hmem
      have hc : c = mk k := (Option.some.inj h).symm
      subst hc
      exact ⟨hmem, k, rfl⟩

lemma mkCodeV1_length (stream : Nat → Nat) (k : Nat) :
    (mkCodeV1 stream k).length = 6 := by
  simp [mkCodeV1, String.length]

lemma mkCodeV1_chars (stream : Nat → Nat) (k : Nat) :
    (mkCodeV1 stream k).toList.all isAlphaNumUpper = true := by
  have hidx : ∀ n : Nat,
      isAlphaNumUpper (pairingCharset.getD (n % 36) 'A') = true := by
    have h36 : ∀ i : Fin 36,
        isAlphaNumUpper (pairingCharset.getD i.val 'A') = true := by decide
    intro n
    exact h36 ⟨n % 36, Nat.mod_lt _ (by decide)⟩
  rw [show (mkCodeV1 stream k).toList =
    (List.range 6).map (fun j => pairingCharset.getD (stream (6 * k + j) % 36) 'A')
    from rfl]
  rw [List.all_eq_true]
  intro x hx
  obtain ⟨j, hj, rfl⟩ := List.mem_map.mp hx
  exact hidx _

lemma mkCodeV2_length (digest : Nat → List (Fin 16)) (k : Nat)
    (h : (digest k).length = 32) : (mkCodeV2 digest k).length = 6 := by
  simp [mkCodeV2, String.length, h]

lemma mkCodeV2_chars (digest : Nat → List (Fin 16)) (k : Nat) :
    (mkCodeV2 digest k).toList.all isAlphaNumUpper = true := by
  have hhex : ∀ d : Fin 16, isAlphaNumUpper (upperChar (hexChar d)) = true := by
    decide
  rw [show (mkCodeV2 digest k).toList =
    ((digest k).take 6).map (fun d => upperChar (hexChar d)) from rfl]
  rw [List.all_eq_true]
  intro x hx
  obtain ⟨d, hd, rfl⟩ := List.mem_map.mp hx
  exact hhex d

/-- Claim C7: every code returned by either revision of
`generate_pairing_code` — the legacy charset sampler and the current
md5-based one (whose digests are 32 lowercase hex digits) — has length 6,
characters in A-Z/0-9 only, and differs from every stored code that
existed when it was generated. -/
theorem generate_pairing_code_spec :
    (∀ (existing : List String) (stream : Nat → Nat) (fuel k : Nat)
        (c : String),
        genLoop (mkCodeV1 stream) existing fuel k = some c →
        c.length = 6 ∧ c.toList.all isAlphaNumUpper = true ∧ c ∉ existing) ∧
    (∀ (existing : List String) (digest : Nat → List (Fin 16)) (fuel k : Nat)
        (c : String),
        (∀ j, (digest j).length = 32) →
        genLoop (mkCodeV2 digest) existing fuel k = some c →
        c.length = 6 ∧ c.toList.all isAlphaNumUpper = true ∧ c ∉ existing) := by
  constructor
  · intro existing stream fuel k c h
    obtain ⟨hnot, j, rfl⟩ := genLoop_some _ _ fuel k c h
    exact ⟨mkCodeV1_length stream j, mkCodeV1_chars stream j, hnot⟩
  · intro existing digest fuel k c hlen h
    obtain ⟨hnot, j, rfl⟩ := genLoop_some _ _ fuel k c h
    exact ⟨mkCodeV2_length digest j (hlen j), mkCodeV2_chars digest j, hnot⟩

/-- Witness for C7: both generator revisions run at concrete oracle
values, fuel 1 and an empty set of stored codes. -/
theorem generate_pairing_code_spec_witness :
    ("AAAAAA".length = 6 ∧ "AAAAAA".toList.all isAlphaNumUpper = true ∧
      "AAAAAA" ∉ ([] : List String)) ∧
    ("000000".length = 6 ∧ "000000".toList.all isAlphaNumUpper = true ∧
      "000000" ∉ ([] : List String)) :=
  ⟨generate_pairing_code_spec.1 [] (fun _ => 0) 1 0 "AAAAAA" (by decide),
   generate_pairing_code_spec.2 [] (fun _ => List.replicate 32 0) 1 0 "000000"
     (fun _ => rfl) (by decide)⟩

lemma markAttendance_success_state (db : DB) (partnerId : String)
    (today : CalDate) (rp : Profile) (s : Setting)
    (hpair : riderInfoOf db partnerId = some rp)
    (hset : db.settings.find? (fun x => decide (x.rider_id = rp.user_id)) = some s) :
    ∃ db1, markAttendance db partnerId today =
        (db1, MarkResult.marked s.daily_petrol_cost) ∧
      db1.profiles = db.profiles ∧ db1.settings = db.settings ∧
      db1.attendance = upsertByKey attSameKey db.attendance
        ⟨partnerId, rp.user_id, today, "present", s.daily_petrol_cost⟩ ∧
      db1.requests = db.requests.map (fun r =>
        if decide (r.partner_id = partnerId) && decide (r.date = today) then
          { r with status := "completed" }
        else r) :=
  ⟨_, markAttendance_success db partnerId today rp s hpair hset,
    rfl, rfl, rfl, rfl⟩

lemma savePetrolCost_profiles (db : DB) (riderId : String) (cost : ℚ) :
    (savePetrolCost db riderId cost).profiles = db.profiles := by
  unfold savePetrolCost
  split
  · rfl
  · split <;> rfl

lemma savePetrolCost_attendance (db : DB) (riderId : String) (cost : ℚ) :
    (savePetrolCost db riderId cost).attendance = db.attendance := by
  unfold savePetrolCost
  split
  · rfl
  · split <;> rfl

lemma savePetrolCost_find? (db : DB) (riderId : String) (cost : ℚ)
    (s : Setting) (hval : ¬(cost < 0 ∨ 10000 < cost))
    (h : db.settings.find? (fun x => decide (x.rider_id = riderId)) = some s) :
    (savePetrolCost db riderId cost).settings.find?
        (fun x => decide (x.rider_id = riderId)) =
      some { s with daily_petrol_cost := cost } := by
  have hp : ∀ x : Setting,
      (fun x : Setting => decide (x.rider_id = riderId))
        ((fun x : Setting =>
          if decide (x.rider_id = riderId) then
            { x with daily_petrol_cost := cost }
          else x) x) =
      (fun x : Setting => decide (x.rider_id = riderId)) x := by
    intro x
    by_cases hx : x.rider_id = riderId <;> simp [hx]
  have hps : decide (s.rider_id = riderId) = true :=
    @List.find?_some Setting (fun x => decide (x.rider_id = riderId)) s
      db.settings h
  unfold savePetrolCost
  rw [if_neg hval, h]
  dsimp only
  rw [find?_map_pred _ _ hp, h, Option.map_some', if_pos hps]

/-- Claim C1: end-to-end scenario — with rider `R`'s daily cost configured
as 120 and partner `P` paired with `R`, invoking `markAttendance` leaves
an attendance row (P, R, today, present, 120) in place, turns every
pending request row for (R, P, today) into its completed version, and
leaves no request row for this partner and date in any status other than
`completed`. -/
theorem markAttendance_end_to_end (db : DB) (P R : String) (today : CalDate)
    (rp : Profile) (s : Setting)
    (hpair : riderInfoOf db P = some rp)
    (hrid : rp.user_id = R)
    (hset : db.settings.find? (fun x => decide (x.rider_id = R)) = some s)
    (hcost : s.daily_petrol_cost = 120) :
    (⟨P, R, today, "present", 120⟩ : AttendanceRow) ∈
      ((markAttendance db P today).1).attendance ∧
    (∀ r ∈ db.requests, r.rider_id = R → r.partner_id = P → r.date = today →
      r.status = "pending" →
      ({ r with status := "completed" } : RequestRow) ∈
        ((markAttendance db P today).1).requests) ∧
    (∀ r' ∈ ((markAttendance db P today).1).requests,
      r'.partner_id = P → r'.date = today → r'.status = "completed") := by
  subst hrid
  rw [markAttendance_success db P today rp s hpair hset]
  dsimp only
  refine ⟨?_, ?_, ?_⟩
  · rw [← hcost]
    exact mem_upsertByKey_self attSameKey db.attendance _
  · intro r hr hrR hrP hrd hrs
    refine List.mem_map.mpr ⟨r, hr, ?_⟩
    simp [hrP, hrd]
  · intro r' hr' h1 h2
    obtain ⟨r, hr, rfl⟩ := List.mem_map.mp hr'
    by_cases hc : (decide (r.partner_id = P) && decide (r.date = today)) = true
    · simp only [hc, if_true]
    · rw [if_neg hc] at h1 h2 ⊢
      exact absurd (by simp [h1, h2]) hc

/-- Witness for C1 at the concrete scenario state: the attendance row and
the completed version of the pending request both exist afterwards. -/
theorem markAttendance_end_to_end_witness :
    (⟨"P", "R", refDate, "present", 120⟩ : AttendanceRow) ∈
      ((markAttendance dbScenario "P" refDate).1).attendance ∧
    (⟨"R", "P", refDate, "completed"⟩ : RequestRow) ∈
      ((markAttendance dbScenario "P" refDate).1).requests := by
  have h := markAttendance_end_to_end dbScenario "P" "R" refDate
    ⟨"R", "r@mail", Role.rider, some "ABC123", none⟩ ⟨"R", 120⟩
    (by decide) rfl (by decide) rfl
  exact ⟨h.1, h.2.1 ⟨"R", "P", refDate, "pending"⟩ (by decide) rfl rfl rfl rfl⟩

/-- Claim C2: with the rider's settings configured (and the schema's
UNIQUE(partner_id, rider_id, date) invariant holding, so at most one row
per key), marking attendance twice on the same day leaves exactly one
attendance row for (partner, rider, date): after two consecutive calls
its amount is the configured cost, and when the rider changes their daily
cost to `c2` between the calls, the second call succeeds and the single
remaining row carries amount `c2` — the cost at the time of the second
call. -/
theorem markAttendance_idempotent (db : DB) (P R : String) (today : CalDate)
    (rp : Profile) (s : Setting) (c2 : ℚ)
    (hpair : riderInfoOf db P = some rp)
    (hrid : rp.user_id = R)
    (hset : db.settings.find? (fun x => decide (x.rider_id = R)) = some s)
    (huniq : (db.attendance.filter (fun a =>
        decide (a.partner_id = P) && decide (a.rider_id = R) &&
          decide (a.date = today))).length ≤ 1)
    (hc0 : 0 ≤ c2) (hc1 : c2 ≤ 10000) :
    ((markAttendance (markAttendance db P today).1 P today).1).attendance.filter
        (fun a => decide (a.partner_id = P) && decide (a.rider_id = R) &&
          decide (a.date = today)) =
      [⟨P, R, today, "present", s.daily_petrol_cost⟩] ∧
    ((markAttendance (savePetrolCost (markAttendance db P today).1 R c2) P
          today).1).attendance.filter
        (fun a => decide (a.partner_id = P) && decide (a.rider_id = R) &&
          decide (a.date = today)) =
      [⟨P, R, today, "present", c2⟩] ∧
    (markAttendance (savePetrolCost (markAttendance db P today).1 R c2) P
        today).2 = MarkResult.marked c2 := by
  subst hrid
  have hval : ¬(c2 < 0 ∨ 10000 < c2) := by push_neg; exact ⟨hc0, hc1⟩
  obtain ⟨db1, e1, hp1, hs1, ha1, -⟩ :=
    markAttendance_success_state db P today rp s hpair hset
  have hpair1 : riderInfoOf db1 P = some rp :=
    (riderInfoOf_eq_of_profiles db1 db P hp1).trans hpair
  have hset1 : db1.settings.find?
      (fun x => decide (x.rider_id = rp.user_id)) = some s := by
    rw [hs1]; exact hset
  have hk : attSameKey (⟨P, rp.user_id, today, "present",
      s.daily_petrol_cost⟩ : AttendanceRow)
      ⟨P, rp.user_id, today, "present", s.daily_petrol_cost⟩ = true := by
    simp [attSameKey]
  have hfil1 : (db1.attendance.filter (attSameKey
      ⟨P, rp.user_id, today, "present", s.daily_petrol_cost⟩)) =
      [⟨P, rp.user_id, today, "present", s.daily_petrol_cost⟩] := by
    rw [ha1]
    exact filter_upsertByKey attSameKey db.attendance _ hk huniq
  obtain ⟨db2a, e2a, -, -, ha2a, -⟩ :=
    markAttendance_success_state db1 P today rp s hpair1 hset1
  have hpairS : riderInfoOf (savePetrolCost db1 rp.user_id c2) P = some rp :=
    (riderInfoOf_eq_of_profiles _ db1 P
      (savePetrolCost_profiles db1 rp.user_id c2)).trans hpair1
  have hsetS := savePetrolCost_find? db1 rp.user_id c2 s hval hset1
  obtain ⟨db2b, e2b, -, -, ha2b, -⟩ :=
    markAttendance_success_state (savePetrolCost db1 rp.user_id c2) P today
      rp { s with daily_petrol_cost := c2 } hpairS hsetS
  refine ⟨?_, ?_, ?_⟩
  · rw [e1]
    dsimp only
    rw [e2a]
    dsimp only
    rw [ha2a]
    refine filter_upsertByKey attSameKey db1.attendance _ hk ?_
    rw [hfil1]
    simp
  · rw [e1]
    dsimp only
    rw [e2b]
    dsimp only
    rw [ha2b, savePetrolCost_attendance]
    dsimp only
    refine filter_upsertByKey attSameKey db1.attendance
      ⟨P, rp.user_id, today, "present", c2⟩ (by simp [attSameKey]) ?_
    have hfil2 : (db1.attendance.filter (attSameKey
        (⟨P, rp.user_id, today, "present", c2⟩ : AttendanceRow))) =
        [(⟨P, rp.user_id, today, "present",
          s.daily_petrol_cost⟩ : AttendanceRow)] := hfil1
    rw [hfil2]
    simp
  · rw [e1]
    dsimp only
    rw [e2b]

/-- Witness for C2 at the concrete state `dbRemark`: cost 100 initially,
raised to 120 between the two calls; exactly one row remains, with
amount 120. -/
theorem markAttendance_idempotent_witness :
    ((markAttendance (savePetrolCost (markAttendance dbRemark "P" refDate).1
          "R" 120) "P" refDate).1).attendance.filter
        (fun a => decide (a.partner_id = "P") && decide (a.rider_id = "R") &&
          decide (a.date = refDate)) =
      [⟨"P", "R", refDate, "present", 120⟩] :=
  (markAttendance_idempotent dbRemark "P" "R" refDate
    ⟨"R", "r@mail", Role.rider, some "ABC123", none⟩ ⟨"R", 100⟩ 120
    (by decide) rfl (by decide) (by decide) (by norm_num) (by norm_num)).2.1

lemma mkChartPoint_date (A : List ChartAtt) (Rq : List ChartReq) (d : Nat) :
    (mkChartPoint A Rq d).date = d := by
  unfold mkChartPoint
  split
  · rfl
  · split <;> rfl

lemma mkChartPoint_completed (A : List ChartAtt) (Rq : List ChartReq)
    (d : Nat) :
    ((mkChartPoint A Rq d).status = "completed") ↔ ∃ x ∈ A, x.date = d := by
  unfold mkChartPoint
  split
  · rename_i a ha
    refine iff_of_true rfl ⟨a, List.mem_of_find?_eq_some ha, ?_⟩
    exact of_decide_eq_true
      (@List.find?_some ChartAtt (fun x => decide (x.date = d)) a A ha)
  · rename_i hnone
    have hno : ∀ x ∈ A, x.date ≠ d := by
      intro x hx
      have hx2 := List.find?_eq_none.mp hnone x hx
      simpa using hx2
    split
    · refine iff_of_false (by simp) ?_
      rintro ⟨x, hx, hxd⟩
      exact hno x hx hxd
    · refine iff_of_false (by simp) ?_
      rintro ⟨x, hx, hxd⟩
      exact hno x hx hxd

lemma mkChartPoint_requested (A : List ChartAtt) (Rq : List ChartReq)
    (d : Nat) :
    ((mkChartPoint A Rq d).status = "requested") ↔
      ((¬∃ x ∈ A, x.date = d) ∧ ∃ r ∈ Rq, r.date = d) := by
  unfold mkChartPoint
  split
  · rename_i a ha
    have hex : ∃ x ∈ A, x.date = d :=
      ⟨a, List.mem_of_find?_eq_some ha,
        of_decide_eq_true
          (@List.find?_some ChartAtt (fun x => decide (x.date = d)) a A ha)⟩
    refine iff_of_false (by simp) ?_
    rintro ⟨hna, -⟩
    exact hna hex
  · rename_i hnone
    have hnoA : ¬∃ x ∈ A, x.date = d := by
      rintro ⟨x, hx, hxd⟩
      have hx2 := List.find?_eq_none.mp hnone x hx
      simp [hxd] at hx2
    split
    · rename_i r hr
      refine iff_of_true rfl ⟨hnoA, r, List.mem_of_find?_eq_some hr, ?_⟩
      exact of_decide_eq_true
        (@List.find?_some ChartReq (fun x => decide (x.date = d)) r Rq hr)
    · rename_i hrnone
      refine iff_of_false (by simp) ?_
      rintro ⟨-, r, hrm, hrd⟩
      have hr2 := List.find?_eq_none.mp hrnone r hrm
      simp [hrd] at hr2

lemma mkChartPoint_noneStatus (A : List ChartAtt) (Rq : List ChartReq)
    (d : Nat) :
    ((mkChartPoint A Rq d).status = "none") ↔
      ((¬∃ x ∈ A, x.date = d) ∧ ¬∃ r ∈ Rq, r.date = d) := by
  unfold mkChartPoint
  split
  · rename_i a ha
    have hex : ∃ x ∈ A, x.date = d :=
      ⟨a, List.mem_of_find?_eq_some ha,
        of_decide_eq_true
          (@List.find?_some ChartAtt (fun x => decide (x.date = d)) a A ha)⟩
    refine iff_of_false (by simp) ?_
    rintro ⟨hna, -⟩
    exact hna hex
  · rename_i hnone
    have hnoA : ¬∃ x ∈ A, x.date = d := by
      rintro ⟨x, hx, hxd⟩
      have hx2 := List.find?_eq_none.mp hnone x hx
      simp [hxd] at hx2
    split
    · rename_i r hr
      have hexr : ∃ r ∈ Rq, r.date = d :=
        ⟨r, List.mem_of_find?_eq_some hr,
          of_decide_eq_true
            (@List.find?_some ChartReq (fun x => decide (x.date = d)) r Rq hr)⟩
      refine iff_of_false (by simp) ?_
      rintro ⟨-, hnr⟩
      exact hnr hexr
    · rename_i hrnone
      refine iff_of_true rfl ⟨hnoA, ?_⟩
      rintro ⟨r, hrm, hrd⟩
      have hr2 := List.find?_eq_none.mp hrnone r hrm
      simp [hrd] at hr2

lemma mkChartPoint_amount (A : List ChartAtt) (Rq : List ChartReq) (d : Nat)
    (h : ¬∃ x ∈ A, x.date = d) :
    (mkChartPoint A Rq d).amount = 0 := by
  unfold mkChartPoint
  split
  · rename_i a ha
    exact absurd
      ⟨a, List.mem_of_find?_eq_some ha,
        of_decide_eq_true
          (@List.find?_some ChartAtt (fun x => decide (x.date = d)) a A ha)⟩ h
  · split <;> rfl

lemma exists_filter_window_att (att : List ChartAtt) (startD endD d : Nat)
    (h1 : startD ≤ d) (h2 : d ≤ endD) :
    (∃ a ∈ att.filter (fun a => inWindow startD endD a.date), a.date = d) ↔
      ∃ a ∈ att, a.date = d := by
  constructor
  · rintro ⟨a, ha, had⟩
    exact ⟨a, (List.mem_filter.mp ha).1, had⟩
  · rintro ⟨a, ha, had⟩
    refine ⟨a, List.mem_filter.mpr ⟨ha, ?_⟩, had⟩
    simp [inWindow, had, h1, h2]

lemma exists_filter_window_req (reqs : List ChartReq) (startD endD d : Nat)
    (h1 : startD ≤ d) (h2 : d ≤ endD) :
    (∃ r ∈ reqs.filter (fun r => inWindow startD endD r.date &&
        decide (r.status = "pending")), r.date = d) ↔
      ∃ r ∈ reqs, r.date = d ∧ r.status = "pending" := by
  constructor
  · rintro ⟨r, hr, hrd⟩
    obtain ⟨hrm, hcond⟩ := List.mem_filter.mp hr
    simp only [Bool.and_eq_true, decide_eq_true_eq] at hcond
    exact ⟨r, hrm, hrd, hcond.2⟩
  · rintro ⟨r, hr, hrd, hrs⟩
    refine ⟨r, List.mem_filter.mpr ⟨hr, ?_⟩, hrd⟩
    simp [inWindow, hrd, hrs, h1, h2]

lemma fetchAnalyticsDay_eq (att : List ChartAtt) (reqs : List ChartReq)
    (endD : Nat) :
    fetchAnalyticsDay att reqs endD =
      (List.range (endD - (endD - 7) + 1)).map (fun i =>
        mkChartPoint (att.filter (fun a => inWindow (endD - 7) endD a.date))
          (reqs.filter (fun r => inWindow (endD - 7) endD r.date &&
            decide (r.status = "pending")))
          ((endD - 7) + i)) := rfl

/-- Claim C6 is false as stated: in 7-day view mode the windowing loop
runs from `endDate - 7` through `endDate` inclusive, so it produces 8
entries, not 7 — here at reference day 10 with no attendance and no
requests. -/
theorem analytics_day_count_counterexample :
    (fetchAnalyticsDay [] [] 10).length ≠ 7 ∧
    (fetchAnalyticsDay [] [] 10).length = 8 := by decide

/-- Claim C6 (amended): in 7-day view mode the windowing produces exactly
8 entries — the days from 7 days before the reference day through the
reference day inclusive — ordered by date ascending; each day is labeled
`completed` when an attendance record exists for it, `requested` when a
pending request exists for it and no attendance does, and `none`
otherwise; days without attendance get amount 0. -/
theorem analytics_day_window_spec (att : List ChartAtt) (reqs : List ChartReq)
    (endD : Nat) (h7 : 7 ≤ endD) :
    (fetchAnalyticsDay att reqs endD).length = 8 ∧
    (∀ (i : Nat) (hi : i < (fetchAnalyticsDay att reqs endD).length),
      ((fetchAnalyticsDay att reqs endD).get ⟨i, hi⟩).date = (endD - 7) + i) ∧
    (fetchAnalyticsDay att reqs endD).Pairwise (fun p q => p.date < q.date) ∧
    (∀ p ∈ fetchAnalyticsDay att reqs endD,
      (p.status = "completed" ↔ ∃ a ∈ att, a.date = p.date) ∧
      (p.status = "requested" ↔
        ((¬∃ a ∈ att, a.date = p.date) ∧
          ∃ r ∈ reqs, r.date = p.date ∧ r.status = "pending")) ∧
      (p.status = "none" ↔
        ((¬∃ a ∈ att, a.date = p.date) ∧
          ¬∃ r ∈ reqs, r.date = p.date ∧ r.status = "pending")) ∧
      ((¬∃ a ∈ att, a.date = p.date) → p.amount = 0)) := by
  have hn : endD - (endD - 7) + 1 = 8 := by omega
  rw [fetchAnalyticsDay_eq, hn]
  refine ⟨by simp, ?_, ?_, ?_⟩
  · intro i hi
    rw [List.get_eq_getElem, List.getElem_map, List.getElem_range,
      mkChartPoint_date]
  · rw [List.pairwise_map]
    refine (List.pairwise_lt_range 8).imp ?_
    intro a b hab
    rw [mkChartPoint_date, mkChartPoint_date]
    omega
  · intro p hp
    obtain ⟨i, hir, rfl⟩ := List.mem_map.mp hp
    rw [List.mem_range] at hir
    have hd1 : endD - 7 ≤ endD - 7 + i := Nat.le_add_right _ _
    have hd2 : endD - 7 + i ≤ endD := by omega
    rw [mkChartPoint_date]
    refine ⟨?_, ?_, ?_, ?_⟩
    · rw [mkChartPoint_completed]
      exact exists_filter_window_att att (endD - 7) endD _ hd1 hd2
    · rw [mkChartPoint_requested,
        exists_filter_window_att att (endD - 7) endD _ hd1 hd2,
        exists_filter_window_req reqs (endD - 7) endD _ hd1 hd2]
    · rw [mkChartPoint_noneStatus,
        exists_filter_window_att att (endD - 7) endD _ hd1 hd2,
        exists_filter_window_req reqs (endD - 7) endD _ hd1 hd2]
    · intro hno
      refine mkChartPoint_amount _ _ _ ?_
      rw [exists_filter_window_att att (endD - 7) endD _ hd1 hd2]
      exact hno

/-- Witness for the amended C6 at reference day 10 with empty attendance
and request sets. -/
theorem analytics_day_window_spec_witness :
    (fetchAnalyticsDay [] [] 10).length = 8 :=
  (analytics_day_window_spec [] [] 10 (by decide)).1
